import Mathlib

/-!
Verification development for the arbuscular schema-driven HTTP router.

The definitions below are a shallow embedding of the JavaScript sources:

* `vvalidate` embeds `Validator.validate` (src/validator.js, the throwing
  variant: failures raise, modelled as `Except.error`);
* `rvalidate` embeds `Router.validate` (src/router.js, the boolean variant);
* `route` embeds `Router.route` (src/router.js) together with its helpers
  `retrievePathParameters`, parameter binding, and response emission.

JavaScript values (including schema nodes, which the sources treat as plain
objects) are modelled by the inductive type `Json`. Property access on an
object returns `Option Json`, with `none` standing for `undefined`.

Modelling notes, applying to corners no theorem below exercises:
numbers are modelled by `Int` plus a `nan` constructor (non-integer numeric
literals are not distinguished); array indexing by numeric string keys is not
modelled; logging side effects are dropped; places where the JavaScript would
raise a `TypeError` that escapes to the outer server handler are noted inline.
-/

inductive Json where
  | null
  | bool (b : Bool)
  | num (n : Int)
  | nan
  | str (s : String)
  | arr (elems : List Json)
  | obj (fields : List (String × Json))

namespace Json

def isNull : Json → Bool
  | Json.null => true
  | _ => false

end Json

/-- First-match association-list lookup, the JavaScript object/property model. -/
def lookupAssoc {α : Type} : List (String × α) → String → Option α
  | [], _ => none
  | (k, v) :: rest, key => if k == key then some v else lookupAssoc rest key

/-- JavaScript property assignment: replace the first binding in place, else append. -/
def setAssoc {α : Type} : List (String × α) → String → α → List (String × α)
  | [], key, v => [(key, v)]
  | (k, w) :: rest, key, v =>
    if k == key then (key, v) :: rest else (k, w) :: setAssoc rest key v

/-- Replace the value bound to an existing key; a missing key leaves the list unchanged. -/
def updateAssoc {α : Type} : List (String × α) → String → α → List (String × α)
  | [], _, _ => []
  | (k, v) :: rest, key, nv =>
    if k == key then (key, nv) :: rest else (k, v) :: updateAssoc rest key nv

/-- `value[key]`; `none` is `undefined`. Non-objects have no modelled properties. -/
def getField : Json → String → Option Json
  | Json.obj fields, key => lookupAssoc fields key
  | _, _ => none

def setField : Json → String → Json → Json
  | Json.obj fields, key, v => Json.obj (setAssoc fields key v)
  | j, _, _ => j

/-- `Object.keys`. Non-objects yield no keys in this model. -/
def jsKeys : Json → List String
  | Json.obj fields => fields.map (fun p => p.1)
  | _ => []

/-- `typeof` for the modelled values. `typeof null` is `"object"` in JavaScript. -/
def jsTypeof : Json → String
  | Json.str _ => "string"
  | Json.num _ => "number"
  | Json.nan => "number"
  | Json.bool _ => "boolean"
  | Json.null => "object"
  | Json.arr _ => "object"
  | Json.obj _ => "object"

/-- A field-access result compared against `null` with `==` (matches `null` and `undefined`). -/
def jsIsNullOpt : Option Json → Bool
  | none => true
  | some Json.null => true
  | some _ => false

/-- String coercion used by template literals and `Array.prototype.toString`.
Array element display is one level deep, which suffices for the error texts here. -/
def display : Json → String
  | Json.null => "null"
  | Json.bool b => cond b "true" "false"
  | Json.num n => toString n
  | Json.nan => "NaN"
  | Json.str s => s
  | Json.obj _ => "[object Object]"
  | Json.arr xs => String.intercalate "," (xs.map displayShallow)
where
  displayShallow : Json → String
    | Json.null => ""
    | Json.bool b => cond b "true" "false"
    | Json.num n => toString n
    | Json.nan => "NaN"
    | Json.str s => s
    | Json.obj _ => "[object Object]"
    | Json.arr _ => ""

/-- Loose equality `j == t` against a string literal, as used by the `spec.type`
and `spec.format` dispatch. An array is first coerced to its string form, so a
singleton type array such as `["string"]` compares equal to `"string"`. -/
def looseEqStr (j : Json) (t : String) : Bool :=
  match j with
  | Json.str s => s == t
  | Json.arr xs => display (Json.arr xs) == t
  | _ => false

def looseEqOptStr (o : Option Json) (t : String) : Bool :=
  match o with
  | some j => looseEqStr j t
  | none => false

/-- Strict equality `===` on modelled values: structural for primitives,
`NaN !== NaN`, and reference equality (never true here) for objects and arrays. -/
def jsStrictEq : Json → Json → Bool
  | Json.str a, Json.str b => a == b
  | Json.num a, Json.num b => a == b
  | Json.bool a, Json.bool b => a == b
  | Json.null, Json.null => true
  | _, _ => false

/-! String utilities defined by structural recursion over the character data,
so that every theorem below can be settled by kernel reduction (the core
library versions are compiled by well-founded recursion and do not reduce). -/

def listToStr (cs : List Char) : String := String.mk cs

/-- `split` on a single-character separator, the only form the sources use. -/
def splitChar (sep : Char) : List Char → List (List Char)
  | [] => [[]]
  | c :: rest =>
    let r := splitChar sep rest
    if c == sep then [] :: r
    else
      match r with
      | h :: t => (c :: h) :: t
      | [] => [[c]]

def strSplitOnChar (sep : Char) (s : String) : List String :=
  (splitChar sep s.data).map listToStr

def joinChar (sep : Char) : List (List Char) → List Char
  | [] => []
  | [x] => x
  | x :: y :: rest => x ++ sep :: joinChar sep (y :: rest)

def strJoinChar (sep : Char) (xs : List String) : String :=
  listToStr (joinChar sep (xs.map String.data))

def strDrop (s : String) (n : Nat) : String := listToStr (s.data.drop n)

def strTake (s : String) (n : Nat) : String := listToStr (s.data.take n)

def strContainsChar (s : String) (c : Char) : Bool := s.data.contains c

/-- Whether the first string is a character-wise prefix of the second. -/
def charsLead : List Char → List Char → Bool
  | [], _ => true
  | _ :: _, [] => false
  | c :: cs, d :: ds => c == d && charsLead cs ds

def strStartsWith (s p : String) : Bool := charsLead p.data s.data

/-- ASCII lower casing, all the sources apply it to HTTP method names. -/
def charToLower (c : Char) : Char :=
  if 'A' ≤ c && c ≤ 'Z' then Char.ofNat (c.toNat + 32) else c

def strToLower (s : String) : String := listToStr (s.data.map charToLower)

def isSpaceChar (c : Char) : Bool := c == ' ' || c == '\t' || c == '\n' || c == '\r'

def strTrim (s : String) : String :=
  listToStr (((s.data.dropWhile isSpaceChar).reverse.dropWhile isSpaceChar).reverse)

def digitsToNatAux : Nat → List Char → Option Nat
  | acc, [] => some acc
  | acc, c :: cs =>
    if c.isDigit then digitsToNatAux (10 * acc + (c.toNat - 48)) cs else none

/-- Integer parsing for the coercions; only the decimal integer literals the
claims exercise are represented exactly (see `jsNumber`). -/
def strToIntOpt (s : String) : Option Int :=
  match s.data with
  | [] => none
  | '-' :: rest =>
    (match rest with
     | [] => none
     | _ => (digitsToNatAux 0 rest).map (fun n => -(n : Int)))
  | cs => (digitsToNatAux 0 cs).map (fun n => (n : Int))

/-! Format pattern matchers for the regular expressions in both validators. -/

/-- Consume exactly `k` decimal digits. -/
def takeDigits : Nat → List Char → Option (List Char)
  | 0, cs => some cs
  | _ + 1, [] => none
  | k + 1, c :: cs => if c.isDigit then takeDigits k cs else none

def bracketOpen : Char := Char.ofNat 123

def bracketClose : Char := Char.ofNat 125

/-- Pattern for `format: date`, anchored `[0-9]\x7b4\x7d-[0-9]\x7b2\x7d-[0-9]\x7b2\x7d`. -/
def matchDate (cs : List Char) : Bool :=
  match takeDigits 4 cs with
  | some ('-' :: r1) =>
    (match takeDigits 2 r1 with
     | some ('-' :: r2) => takeDigits 2 r2 == some []
     | _ => false)
  | _ => false

/-- Trailing time-zone alternative `(Z|z|(\+|-)[0-9][0-9]:[0-9][0-9])`, anchored. -/
def matchTimeZone : List Char → Bool
  | ['Z'] => true
  | ['z'] => true
  | c :: rest =>
    (c == '+' || c == '-') &&
      (match takeDigits 2 rest with
       | some (':' :: r) => takeDigits 2 r == some []
       | _ => false)
  | [] => false

/-- The starred fractional-seconds group of the date-time pattern followed by the
time zone. The dot of `(.[0-9]+)` is the unescaped regex dot: any character.
The fuel argument only bounds the recursion; each step consumes at least four
characters, so the string length is always sufficient fuel. -/
def matchFracTz : Nat → List Char → Bool
  | 0, cs => matchTimeZone cs
  | f + 1, cs =>
    matchTimeZone cs ||
      (match cs with
       | [] => false
       | _ :: rest =>
         (match takeDigits 3 rest with
          | some r => matchFracTz f r
          | none => false) ||
         (match takeDigits 6 rest with
          | some r => matchFracTz f r
          | none => false))

/-- Pattern for `format: date-time` from both validators. -/
def matchDateTime (cs : List Char) : Bool :=
  match takeDigits 4 cs with
  | some ('-' :: r1) =>
    (match takeDigits 2 r1 with
     | some ('-' :: r2) =>
       (match takeDigits 2 r2 with
        | some (t :: r3) =>
          (t == 'T' || t == 't') &&
            (match takeDigits 2 r3 with
             | some (':' :: r4) =>
               (match takeDigits 2 r4 with
                | some (':' :: r5) =>
                  (match takeDigits 2 r5 with
                   | some r6 => matchFracTz r6.length r6
                   | none => false)
                | _ => false)
             | _ => false)
        | _ => false)
     | _ => false)
  | _ => false

def isHexUpper (c : Char) : Bool := c.isDigit || ('A' ≤ c && c ≤ 'F')

def isHexLower (c : Char) : Bool := c.isDigit || ('a' ≤ c && c ≤ 'f')

def takeClass (p : Char → Bool) : Nat → List Char → Option (List Char)
  | 0, cs => some cs
  | _ + 1, [] => none
  | k + 1, c :: cs => if p c then takeClass p k cs else none

/-- One case variant of the `format: uuid` pattern: 8-4-4-4-12 hex groups with
a version digit 1-4 leading the third group. -/
def matchUuidWith (hex : Char → Bool) (cs : List Char) : Bool :=
  match takeClass hex 8 cs with
  | some ('-' :: r1) =>
    (match takeClass hex 4 r1 with
     | some ('-' :: r2) =>
       (match r2 with
        | v :: r3 =>
          ('1' ≤ v && v ≤ '4') &&
            (match takeClass hex 3 r3 with
             | some ('-' :: r4) =>
               (match takeClass hex 4 r4 with
                | some ('-' :: r5) => takeClass hex 12 r5 == some []
                | _ => false)
             | _ => false)
        | [] => false)
     | _ => false)
  | _ => false

def matchUuid (cs : List Char) : Bool :=
  matchUuidWith isHexUpper cs || matchUuidWith isHexLower cs

/-- Pattern for `format: byte` (Router.validate only): `[a-zA-Z0-9+/=]+`, anchored. -/
def matchByte (cs : List Char) : Bool :=
  cs.length > 0 && cs.all (fun c => c.isAlphanum || c == '+' || c == '/' || c == '=')

/-! `Validator.validate` (src/validator.js). The function raises on failure and
its ordinary return value is discarded by every caller. -/

/-- The `forEach` walk of `Validator.validate` reference resolution
(validator.js lines 21-29): skip the `#` and `components` segments and look the
remaining segments up starting from `components.schemas`; a segment missing at
the current position falls back to a fresh `components.schemas` lookup at the
next segment, exactly as the source does. -/
def vresolveSegs (components : Json) (segs : List String) : Option Json :=
  segs.foldl
    (fun component reference =>
      if reference == "#" || reference == "components" then component
      else
        match getField components "schemas" with
        | none => component
        | some schemas =>
          if schemas.isNull then component
          else
            match component with
            | none => getField schemas reference
            | some c => getField c reference)
    none

/-- `$ref` resolution of `Validator.validate` (validator.js lines 16-35). -/
def vresolve (spec components : Json) : Except String Json :=
  match getField spec "$ref" with
  | some (Json.str r) =>
    match vresolveSegs components (strSplitOnChar '/' r) with
    | some c => Except.ok c
    | none => Except.error ("The component " ++ r ++ " is not specified.")
  | _ => Except.ok spec

/-- `Array.prototype.every` with a callback that can raise; the callback result
is coerced to a boolean and a falsy result stops the iteration (the aggregate
boolean is discarded by `Validator.validate`, only raising matters). -/
def vjsEvery {α : Type} (f : α → Except String Bool) : List α → Except String Unit
  | [] => Except.ok ()
  | x :: xs =>
    match f x with
    | Except.error e => Except.error e
    | Except.ok true => vjsEvery f xs
    | Except.ok false => Except.ok ()

/-- Collect the messages of the callback failures over a whole list
(`forEach` with a `try`/`catch` accumulating into `errors`). -/
def collectFailures {α : Type} (f : α → Except String Unit) (xs : List α) : List String :=
  xs.foldl
    (fun errs x =>
      match f x with
      | Except.error e => errs ++ [e]
      | Except.ok _ => errs)
    []

/-- The type dispatch of `Validator.validate` after reference resolution
(validator.js lines 36-162), parameterized by the recursive call so that
`vvalidate` below can thread its fuel through. -/
def vcheckWith (recur : Json → Json → Json → Except String Unit)
    (value spec components : Json) : Except String Unit :=
      let ty := getField spec "type"
      if looseEqOptStr ty "string" then
        match value with
        | Json.str s =>
          let fmt := getField spec "format"
          let formatOk :=
            if looseEqOptStr fmt "date-time" then
              if matchDateTime s.toList then Except.ok ()
              else Except.error "The data format is different from the definition [date-time]."
            else if looseEqOptStr fmt "date" then
              if matchDate s.toList then Except.ok ()
              else Except.error "The data format is different from the definition. [date]."
            else if looseEqOptStr fmt "uuid" then
              if matchUuid s.toList then Except.ok ()
              else Except.error "The data format is different from the definition. [uuid]."
            else Except.ok ()
          match formatOk with
          | Except.error e => Except.error e
          | Except.ok _ =>
            match getField spec "enum" with
            | some (Json.arr es) =>
              if es.any (fun e => jsStrictEq e value) then Except.ok ()
              else Except.error ("The data deviates from the variation " ++ display (Json.arr es) ++ ".")
            | _ => Except.ok ()
        | _ => Except.error "The data type is different from the definition [string]."
      else if looseEqOptStr ty "number" then
        if jsTypeof value == "number" then Except.ok ()
        else Except.error "The data type is different from the definition [number]."
      else if looseEqOptStr ty "boolean" then
        if jsTypeof value == "boolean" then Except.ok ()
        else Except.error "The data type is different from the definition [boolean]."
      else if looseEqOptStr ty "object" then
        if jsTypeof value != "object" || value.isNull then
          Except.error "The data type is different from the definition [object]."
        else
          match getField spec "properties" with
          | some props =>
            if props.isNull then Except.ok ()
            else
              let required : List Json :=
                match getField spec "required" with
                | some (Json.arr rs) => rs
                | _ => []
              -- Object.keys(properties).every(...): every callback path below
              -- yields a falsy value (a bare return or no return statement), so
              -- the iteration stops after the first key.
              vjsEvery
                (fun propertyName =>
                  match getField value propertyName with
                  | none =>
                    if required.any (fun r => jsStrictEq r (Json.str propertyName)) then
                      Except.error ("The property " ++ propertyName ++ " is required.")
                    else Except.ok false
                  | some childValue =>
                    match getField props propertyName with
                    | some childSpec =>
                      (match recur childValue childSpec components with
                       | Except.error e =>
                         Except.error ("The value [" ++ display childValue ++ "] of the property ["
                           ++ propertyName ++ "] differs from the definition. " ++ e)
                       | Except.ok _ => Except.ok false)
                    | none => Except.ok false)
                (jsKeys props)
          | none => Except.ok ()
      else if looseEqOptStr ty "array" then
        match value with
        | Json.arr elems =>
          let items := getField spec "items"
          -- value.every(...): the callback returns false when items is null and
          -- otherwise validates and returns undefined; both are falsy, so at
          -- most the first element is examined and the boolean is discarded.
          vjsEvery
            (fun childValue =>
              if jsIsNullOpt items then Except.ok false
              else
                match items with
                | some elementSpec =>
                  (match recur childValue elementSpec components with
                   | Except.error e => Except.error e
                   | Except.ok _ => Except.ok false)
                | none => Except.ok false)
            elems
        | _ => Except.error "The data type is different from the definition [array]."
      else if looseEqOptStr ty "null" then
        if value.isNull then Except.ok ()
        else Except.error "The data type is different from the definition [null]."
      else
        match ty with
        | some (Json.arr types) =>
          let failures := collectFailures
            (fun t => recur value (setField spec "type" t) components) types
          if failures.length == types.length then
            Except.error (String.intercalate "\n" failures)
          else Except.ok ()
        | none | some Json.null =>
          (match getField spec "anyOf" with
           | some (Json.arr specs) =>
             let failures := collectFailures
               (fun childSpec => recur value childSpec components) specs
             if failures.length == specs.length then
               Except.error (String.intercalate "\n" failures)
             else Except.ok ()
           | _ =>
             match getField spec "allOf" with
             | some (Json.arr specs) =>
               let failures := collectFailures
                 (fun childSpec => recur value childSpec components) specs
               if failures.length > 0 then
                 Except.error (String.intercalate "\n" failures)
               else Except.ok ()
             | _ =>
               match getField spec "oneOf" with
               | some (Json.arr specs) =>
                 let failures := collectFailures
                   (fun childSpec => recur value childSpec components) specs
                 if failures.length > 0 && (failures.length : Int) != (specs.length : Int) - 1 then
                   Except.error (String.intercalate "\n" failures)
                 else Except.ok ()
               | _ => Except.ok ())
        | some _ => Except.ok ()

/-- Shallow embedding of `Validator.validate(value, spec, components)`
(src/validator.js lines 15-163). A raised `Error` is `Except.error` carrying the
message; normal completion is `Except.ok ()` (callers ignore the return value).
The fuel argument only bounds the recursion depth, which the source leaves
unbounded for cyclic `$ref` chains. -/
def vvalidate : Nat → Json → Json → Json → Except String Unit
  | 0, _, _, _ => Except.error "model artifact: recursion fuel exhausted"
  | fuel + 1, value, spec0, components =>
    match
      (if jsIsNullOpt (getField spec0 "type") && !jsIsNullOpt (getField spec0 "$ref")
          && !components.isNull then
        vresolve spec0 components
      else Except.ok spec0) with
    | Except.error e => Except.error e
    | Except.ok spec => vcheckWith (vvalidate fuel) value spec components

/-! `Router.validate` (src/router.js lines 468-583), the boolean variant. -/

/-- The `forEach` walk of `Router.validate` reference resolution (router.js
lines 470-475): segments are looked up directly on the components object, so
the first meaningful segment (normally `schemas`) selects the component
section. -/
def rresolveSegs (components : Json) (segs : List String) : Option Json :=
  segs.foldl
    (fun component reference =>
      if reference == "#" || reference == "components" then component
      else
        match component with
        | none => getField components reference
        | some c => getField c reference)
    none

/-- `$ref` resolution of `Router.validate` (router.js lines 469-481). -/
def rresolve (spec components : Json) : Option Json :=
  match getField spec "$ref" with
  | some (Json.str r) => rresolveSegs components (strSplitOnChar '/' r)
  | _ => none

/-- The type dispatch of `Router.validate` after reference resolution
(router.js lines 483-582), parameterized by the recursive call. -/
def rcheckWith (recur : Json → Json → Json → Bool) (value spec components : Json) : Bool :=
      let ty := getField spec "type"
      if looseEqOptStr ty "string" then
        match value with
        | Json.str s =>
          let fmt := getField spec "format"
          (if looseEqOptStr fmt "date-time" then matchDateTime s.toList
           else if looseEqOptStr fmt "date" then matchDate s.toList
           else if looseEqOptStr fmt "byte" then matchByte s.toList
           else if looseEqOptStr fmt "uuid" then matchUuid s.toList
           else true) &&
          (match getField spec "enum" with
           | some (Json.arr es) => es.any (fun e => jsStrictEq e value)
           | _ => true)
        | _ => false
      else if looseEqOptStr ty "number" then jsTypeof value == "number"
      else if looseEqOptStr ty "boolean" then jsTypeof value == "boolean"
      else if looseEqOptStr ty "object" then
        if jsTypeof value != "object" || value.isNull then false
        else
          match getField spec "properties" with
          | some props =>
            if props.isNull then true
            else
              let required : List Json :=
                match getField spec "required" with
                | some (Json.arr rs) => rs
                | _ => []
              (jsKeys props).all
                (fun propertyName =>
                  match getField value propertyName with
                  | none => !(required.any (fun r => jsStrictEq r (Json.str propertyName)))
                  | some childValue =>
                    match getField props propertyName with
                    | some childSpec => recur childValue childSpec components
                    | none => true)
          | none => true
      else if looseEqOptStr ty "array" then
        match value with
        | Json.arr elems =>
          let items := getField spec "items"
          elems.all
            (fun childValue =>
              if jsIsNullOpt items then false
              else
                match items with
                | some elementSpec => recur childValue elementSpec components
                | none => false)
        | _ => false
      else if looseEqOptStr ty "null" then value.isNull
      else
        match ty with
        | some (Json.arr types) =>
          types.any (fun t => recur value (setField spec "type" t) components)
        | none | some Json.null =>
          (match getField spec "anyOf" with
           | some (Json.arr specs) =>
             specs.any (fun childSpec => recur value childSpec components)
           | _ =>
             match getField spec "allOf" with
             | some (Json.arr specs) =>
               specs.all (fun childSpec => recur value childSpec components)
             | _ =>
               match getField spec "oneOf" with
               | some (Json.arr specs) =>
                 (specs.filter (fun childSpec => recur value childSpec components)).length == 1
               | _ => true)
        | some _ => true

/-- Shallow embedding of `Router.validate(value, spec, components)`
(src/router.js). Failures return `false` (with only a log line in the source);
the fuel argument bounds the otherwise unbounded `$ref` recursion. -/
def rvalidate : Nat → Json → Json → Json → Bool
  | 0, _, _, _ => false
  | fuel + 1, value, spec0, components =>
    match
      (if jsIsNullOpt (getField spec0 "type") && !jsIsNullOpt (getField spec0 "$ref")
          && !components.isNull then
        rresolve spec0 components
      else some spec0) with
    | none => false
    | some spec => rcheckWith (rvalidate fuel) value spec components

/-! The request dispatcher `Router.route` (src/router.js lines 161-460) and its
collaborators, modelled as pure functions. Hooks and handlers are opaque
functions supplied through the router state; HTTP emission is modelled by the
head data actually written (`writeHead` arguments and the body). -/

structure Param where
  name : String
  paramIn : String
  required : Option Bool
  schema : Json

structure MediaTypeSpec where
  schema : Option Json

structure BodySpec where
  content : Option (List (String × MediaTypeSpec))

structure RespSpec where
  content : Option (List (String × MediaTypeSpec))

structure Operation where
  security : Option Json
  parameters : Option (List Param)
  requestBody : Option BodySpec
  responses : Option (List (String × RespSpec))

/-- One value of `this.paths`: the path item object, whose keys are the
lower-cased HTTP methods plus the optional path-level `parameters` list. -/
structure PathItem where
  parameters : Option (List Param)
  methods : List (String × Operation)

structure Target where
  module : Option String
  function : Option String
  validTypes : Option (List String)

structure JsError where
  name : String
  message : String

/-- A handler return value that is not nullish: a JSON-like value or a
`DownloadFile` instance. -/
inductive RespVal where
  | json (j : Json)
  | file (dataType : String) (fileName : Option String)

inductive HandlerOutcome where
  | ret (v : Option RespVal)
  | err (e : JsError)

/-- The `responseBody != null` test of the response-emission step (`none`
models both null and undefined handler results). -/
def respNotNull : Option RespVal → Bool
  | none => false
  | some (RespVal.json Json.null) => false
  | some _ => true

def Handler := Option Json → Option Json → HandlerOutcome

structure Request where
  method : Option String
  url : Option String
  contentType : Option String
  parsedBody : Option Json

structure RouterState where
  contextPath : String
  paths : List (String × PathItem)
  routeDefinition : List (String × List (String × Target))
  components : Json
  authPaths : List String
  authenticateFunction : Option (Request → Except JsError Json)
  authorizeFunction : Option (Request → Except JsError Json)
  modules : String → Option (String → Option Handler)

inductive BodyOut where
  | textOut (s : String)
  | jsonOut (j : Json)
  | fileOut (dataType : String)

/-- The observable head data and body of one emitted HTTP response. -/
structure HttpResponse where
  status : Nat
  statusMessage : Option String
  contentType : Option String
  body : Option BodyOut

def sendJsonResp (j : Json) : HttpResponse :=
  { status := 200, statusMessage := none, contentType := some "application/json",
    body := some (BodyOut.jsonOut j) }

/-- `sendText` calls `response.writeHead(200, text, headers)`: the three-argument
form of `writeHead` takes the string as the HTTP status message, and the
following `response.end()` writes no body. -/
def sendTextResp (text : String) : HttpResponse :=
  { status := 200, statusMessage := some text, contentType := some "text/plain",
    body := none }

def sendFileResp (dataType : String) : HttpResponse :=
  { status := 200, statusMessage := none, contentType := some dataType,
    body := some (BodyOut.fileOut dataType) }

def sendSuccessResp : HttpResponse :=
  { status := 200, statusMessage := none, contentType := none, body := none }

def sendErrorResp (status : Nat) (message : String) : HttpResponse :=
  { status := status, statusMessage := none, contentType := some "text/plain",
    body := some (BodyOut.textOut message) }

def genericErrorMessage : String :=
  "An error has occurred on the server. Please contact the administrator."

/-- `sendError(response, error)`: the error-kind to status mapping of
src/router.js lines 679-716. -/
def sendErrorObj (e : JsError) : HttpResponse :=
  if e.name == "AuthenticationError" then sendErrorResp 401 e.message
  else if e.name == "AuthorizationError" then sendErrorResp 403 e.message
  else if e.name == "JwtParseError" then sendErrorResp 400 e.message
  else if e.name == "RequestError" then sendErrorResp 400 e.message
  else if e.name == "StateError" then sendErrorResp 403 e.message
  else if e.name == "NotFoundError" then sendErrorResp 404 e.message
  else sendErrorResp 500 genericErrorMessage

/-- `String.prototype.lastIndexOf("/")`; `none` is index -1. -/
def lastSlashIdx (s : String) : Option Nat :=
  (s.toList.enum.filterMap (fun p => if p.2 == '/' then some p.1 else none)).getLast?

/-- Suffixes following a closing bracket that is preceded by at least one
character, enumerating the ways `.+` can end inside one placeholder group. -/
def closeSuffixes (cs : List Char) : List (List Char) :=
  match cs with
  | [] => []
  | _ :: rest => go rest
where
  go : List Char → List (List Char)
    | [] => []
    | c :: rest => (if c == bracketClose then [rest] else []) ++ go rest

/-- Anchored match of `k` repetitions of the placeholder group, the regex
fragment slash, open bracket, `.+`, close bracket, against the remaining
characters of a declared path. The dot also matches brackets and slashes, so
the match backtracks over every candidate closing bracket. -/
def tailMatch : Nat → List Char → Bool
  | 0, cs => cs.isEmpty
  | k + 1, cs =>
    match cs with
    | c1 :: c2 :: rest =>
      c1 == '/' && c2 == bracketOpen && (closeSuffixes rest).any (fun suf => tailMatch k suf)
    | _ => false

/-- `new RegExp("^" + pattern + "$").test(path)` where the pattern is the
remaining request-path stem followed by `k` placeholder groups. The stem is
matched literally (request paths containing regex metacharacters are not
modelled). -/
def patternMatches (stem : String) (k : Nat) (declared : String) : Bool :=
  strStartsWith declared stem && tailMatch k (declared.data.drop stem.length)

/-- `Router.retrievePathParameters` (src/router.js lines 445-460). Returns the
matched declared path together with the accumulated parameter values in push
order. The fuel only bounds the recursion; every step strictly shortens the
path, so `requestPath.length + 1` is always sufficient. -/
def retrievePathParameters (paths : List (String × PathItem)) :
    Nat → String → List String → Option (String × List String)
  | 0, _, _ => none
  | fuel + 1, requestPath, pathParameters =>
    match lastSlashIdx requestPath with
    | none => none
    | some index =>
      if index == 0 || index == requestPath.length - 1 then none
      else
        let pathParameters := pathParameters ++ [strDrop requestPath (index + 1)]
        let stem := strTake requestPath index
        match paths.find? (fun p => patternMatches stem pathParameters.length p.1) with
        | some p => some (p.1, pathParameters)
        | none => retrievePathParameters paths fuel stem pathParameters

/-- The parameter-inheritance assignment `methodSpec.parameters = spec.parameters`
(src/router.js lines 233-238): when the matched path item carries a non-empty
path-level parameter list and the method is declared, the list is written into
the operation object held in the shared `this.paths` table. -/
def inheritParameters (paths : List (String × PathItem)) (key m : String) :
    List (String × PathItem) :=
  match lookupAssoc paths key with
  | none => paths
  | some item =>
    match lookupAssoc item.methods m with
    | none => paths
    | some op =>
      match item.parameters with
      | some ps =>
        if ps.length > 0 then
          updateAssoc paths key
            { item with methods := updateAssoc item.methods m { op with parameters := some ps } }
        else paths
      | none => paths

/-- `querystring.parse` restricted to simple `key=value` pairs (no percent
decoding, no repeated keys). -/
def parseQueryString (qs : String) : List (String × String) :=
  (strSplitOnChar '&' qs).map
    (fun kv =>
      match strSplitOnChar '=' kv with
      | [] => (kv, "")
      | k :: vs => (k, strJoinChar '=' vs))

/-- Content-type normalization (router.js lines 194-197): cut at the first
semicolon and trim, leaving the header unchanged when it has no semicolon. -/
def normalizeContentType : Option String → Option String
  | none => none
  | some ct =>
    if strContainsChar ct ';' then some (strTrim (listToStr (ct.data.takeWhile (fun c => c != ';')))) else some ct

/-- `Number(string)` restricted to the integer-valued literals the claims
exercise; every other string maps to the NaN value. -/
def jsNumber (s : String) : Json :=
  match strToIntOpt s with
  | some n => Json.num n
  | none => Json.nan

/-- Path-parameter coercion shared by both binding sites (router.js lines
300-310 and 348-360). -/
def coercePath (schema : Json) (v : String) : Json :=
  let t := getField schema "type"
  if looseEqOptStr t "number" || looseEqOptStr t "integer" then jsNumber v
  else if looseEqOptStr t "boolean" then Json.bool (v == "true" || v == "1")
  else Json.str v

/-- The query-parameter `every` loop (router.js lines 316-342). `none` is the
aggregate `false` that triggers the 400 response. -/
def bindQueryParams : List Param → List (String × String) → Json → Option Json
  | [], _, acc => some acc
  | p :: rest, qp, acc =>
    if p.paramIn != "query" then bindQueryParams rest qp acc
    else
      match lookupAssoc qp p.name with
      | none =>
        if p.required.getD false then none
        else bindQueryParams rest qp acc
      | some v =>
        let t := getField p.schema "type"
        if looseEqOptStr t "number" then
          if v.length > 0 && v.toList.all (fun c => c.isDigit || c == '.' || c == '-') then
            bindQueryParams rest qp (setField acc p.name (jsNumber v))
          else none
        else if looseEqOptStr t "boolean" then
          if v == "true" || v == "false" || v == "1" || v == "0" then
            bindQueryParams rest qp (setField acc p.name (Json.bool (v == "true" || v == "1")))
          else none
        else bindQueryParams rest qp (setField acc p.name (Json.str v))

/-- The path-parameter binding loop of the parameters-only branch (router.js
lines 347-362). `requestBody = ` empty object is executed INSIDE the loop body,
so every matching iteration discards the bindings of the previous ones; with no
matching iteration the request body stays undefined. -/
def bindPathParams (ps : List Param) (pathParams : List String) : Option Json :=
  pathParams.enum.foldl
    (fun requestBody ip =>
      if ip.1 < ps.length then
        match ps.get? ip.1 with
        | some pspec =>
          if pspec.paramIn == "path" then
            some (setField (Json.obj []) pspec.name (coercePath pspec.schema ip.2))
          else requestBody
        | none => requestBody
      else requestBody)
    none

/-- The path-parameter coercion into a parsed request body (router.js lines
298-312). On a non-object body the JavaScript would raise a TypeError; that
corner is left as the identity here and is not exercised. -/
def coerceIntoBody (ps : List Param) (pathParams : List String) (body : Option Json) :
    Option Json :=
  pathParams.enum.foldl
    (fun body ip =>
      if ip.1 < ps.length then
        match ps.get? ip.1 with
        | some pspec =>
          if pspec.paramIn == "path" then
            match body with
            | some b => some (setField b pspec.name (coercePath pspec.schema ip.2))
            | none => body
          else body
        | none => body
      else body)
    body

/-- The request data carried from the pre-resolution phase of `route` into the
dispatch phase: matched spec key, lower-cased method, effective operation
(after parameter inheritance), ordered path-parameter values, parsed query
parameters, normalized content type, and the possibly mutated spec table. -/
structure Resolved where
  key : String
  methodLower : String
  op : Operation
  pathParams : List String
  queryParameters : Option (List (String × String))
  contentType : Option String
  pathsOut : List (String × PathItem)

/-- The part of `Router.route` up to and including method resolution (router.js
lines 162-243): method and URL checks, preflight, query extraction,
content-type normalization, the authentication-endpoint shortcut, path
resolution, and the parameter-inheritance write into the spec table. -/
def preResolve (st : RouterState) (req : Request) : Sum HttpResponse Resolved :=
  match req.method with
  | none => Sum.inl (sendErrorResp 404 "Not found.")
  | some method =>
    if method == "OPTIONS" then Sum.inl sendSuccessResp
    else
      match req.url with
      | none => Sum.inl (sendErrorResp 404 "Not found.")
      | some url =>
        let requestPath0 := strDrop url st.contextPath.length
        let qsplit : Option (String × Option (List (String × String))) :=
          if strContainsChar requestPath0 '?' then
            let parts := strSplitOnChar '?' requestPath0
            let qs := strJoinChar '?' parts.tail
            if qs == "" then none
            else some (parts.headD "", some (parseQueryString qs))
          else some (requestPath0, none)
        match qsplit with
        | none => Sum.inl (sendErrorResp 404 "Not found.")
        | some (requestPath, queryParameters) =>
          let requestContentType := normalizeContentType req.contentType
          match st.authenticateFunction, st.authPaths.contains requestPath with
          | some authFn, true =>
            Sum.inl
              (match authFn req with
               | Except.ok result => sendJsonResp result
               | Except.error e => sendErrorObj e)
          | _, _ =>
            let found : Option (String × List String) :=
              match lookupAssoc st.paths requestPath with
              | some _ => some (requestPath, [])
              | none =>
                match retrievePathParameters st.paths (requestPath.length + 1) requestPath [] with
                | some p => if p.2.length > 0 then some (p.1, p.2.reverse) else none
                | none => none
            match found with
            | none => Sum.inl (sendErrorResp 404 "Not found.")
            | some (key, pathParams) =>
              match lookupAssoc st.paths key with
              | none => Sum.inl (sendErrorResp 404 "Not found.")
              | some item =>
                let methodLower := strToLower method
                match lookupAssoc item.methods methodLower with
                | none => Sum.inl (sendErrorResp 404 "Not found.")
                | some op0 =>
                  let op :=
                    match item.parameters with
                    | some ps => if ps.length > 0 then { op0 with parameters := some ps } else op0
                    | none => op0
                  Sum.inr
                    { key := key, methodLower := methodLower, op := op,
                      pathParams := pathParams, queryParameters := queryParameters,
                      contentType := requestContentType,
                      pathsOut := inheritParameters st.paths key methodLower }

/-- The body/parameter extraction step (router.js lines 276-363): request-body
parsing and validation, or query/path parameter binding. `Sum.inl` is an early
error response, `Sum.inr` the request body handed to the handler. -/
def bindStep (fuel : Nat) (st : RouterState) (req : Request) (res : Resolved) (_target : Target) :
    Sum HttpResponse (Option Json) :=
  -- the target only feeds its validTypes to the external body-parser collaborator
  let paramBind : Sum HttpResponse (Option Json) :=
    match res.op.parameters with
    | some ps =>
      (match res.queryParameters with
       | some qp =>
         (match bindQueryParams ps qp (Json.obj []) with
          | none => Sum.inl (sendErrorResp 400 "Request format is not supported.")
          | some b => Sum.inr (some b))
       | none =>
         if res.pathParams.length > 0 then Sum.inr (bindPathParams ps res.pathParams)
         else Sum.inr none)
    | none => Sum.inr none
  match res.op.requestBody with
  | some rb =>
    (match rb.content with
     | some content =>
       let requestBody := req.parsedBody
       let requestSpec :=
         match res.contentType with
         | some ct => lookupAssoc content ct
         | none => none
       let validated :=
         match requestSpec with
         | some ms =>
           (match ms.schema with
            | some schema =>
              rvalidate fuel
                (match requestBody with
                 | some b => b
                 | none => Json.null)
                schema st.components
            | none => true)
         | none => true
       if !validated then Sum.inl (sendErrorResp 400 "Request format is not supported.")
       else
         if res.pathParams.length > 0 then
           match res.op.parameters with
           | some ps => Sum.inr (coerceIntoBody ps res.pathParams requestBody)
           | none => Sum.inr requestBody
         else Sum.inr requestBody
     | none => paramBind)
  | none => paramBind

/-- The response validation and emission step (router.js lines 390-437),
keyed solely on the declared `"200"` response. -/
def emitResponse (fuel : Nat) (components : Json) (op : Operation)
    (responseBody : Option RespVal) : HttpResponse :=
  match op.responses with
  | none => sendErrorResp 500 "Internal server error."
  | some responses =>
    match lookupAssoc responses "200" with
    | none => sendErrorResp 500 "Internal server error."
    | some r200 =>
      match responseBody with
      | none => sendSuccessResp
      | some (RespVal.json Json.null) => sendSuccessResp
      | some rv =>
        match r200.content with
        | none => sendErrorResp 500 "Internal server error."
        | some responseSpec =>
          match rv with
          | RespVal.file dataType _ =>
            if (lookupAssoc responseSpec dataType).isSome then sendFileResp dataType
            else sendErrorResp 500 "Internal server error."
          | RespVal.json j =>
            if jsTypeof j == "object" then
              match lookupAssoc responseSpec "application/json" with
              | some ms =>
                (match ms.schema with
                 | some schema =>
                   if rvalidate fuel j schema components then sendJsonResp j
                   else sendErrorResp 500 "Internal server error."
                 | none =>
                   -- validate(value, undefined, ...) raises a TypeError that the
                   -- outer server handler turns into a generic 500
                   sendErrorResp 500 genericErrorMessage)
              | none => sendErrorResp 500 "Internal server error."
            else
              match j with
              | Json.str s =>
                if (lookupAssoc responseSpec "text/plain").isSome then sendTextResp s
                else sendErrorResp 500 "Internal server error."
              | _ => sendErrorResp 500 "Internal server error."

/-- The outcome of one dispatched request: the emitted response, the request
body the handler was invoked with (`none` when the handler was never called),
and the spec table as left behind by the dispatch. -/
structure RouteOutcome where
  resp : HttpResponse
  handlerCalled : Option (Option Json)
  paths : List (String × PathItem)

/-- The dispatch phase of `Router.route` after method resolution (router.js
lines 245-438): authorization, routing-target lookup, body and parameter
extraction, handler invocation, and response emission. -/
def dispatch (fuel : Nat) (st : RouterState) (req : Request) (res : Resolved) : RouteOutcome :=
  match
    (match res.op.security, st.authorizeFunction with
     | some _, some authFn =>
       (match authFn req with
        | Except.ok s => Sum.inr (some s)
        | Except.error e => Sum.inl (sendErrorObj e))
     | _, _ => Sum.inr none : Sum HttpResponse (Option Json)) with
  | Sum.inl r => { resp := r, handlerCalled := none, paths := res.pathsOut }
  | Sum.inr session =>
    match
      (match lookupAssoc st.routeDefinition res.key with
       | some methods => lookupAssoc methods res.methodLower
       | none => none) with
    | none =>
      { resp := sendErrorResp 404 "Not found.", handlerCalled := none, paths := res.pathsOut }
    | some target =>
      match bindStep fuel st req res target with
      | Sum.inl r => { resp := r, handlerCalled := none, paths := res.pathsOut }
      | Sum.inr requestBody =>
        match target.module with
        | none =>
          { resp := sendErrorResp 404 "Not found.", handlerCalled := none, paths := res.pathsOut }
        | some moduleName =>
          match st.modules moduleName with
          | none =>
            { resp := sendErrorResp 404 "Not found.", handlerCalled := none,
              paths := res.pathsOut }
          | some moduleFns =>
            match target.function with
            | none =>
              { resp := sendErrorResp 404 "Not found.", handlerCalled := none,
                paths := res.pathsOut }
            | some functionName =>
              match moduleFns functionName with
              | none =>
                { resp := sendErrorResp 404 "Not found.", handlerCalled := none,
                  paths := res.pathsOut }
              | some handler =>
                match handler session requestBody with
                | HandlerOutcome.err e =>
                  { resp := sendErrorObj e, handlerCalled := some requestBody,
                    paths := res.pathsOut }
                | HandlerOutcome.ret responseBody =>
                  { resp := emitResponse fuel st.components res.op responseBody,
                    handlerCalled := some requestBody, paths := res.pathsOut }

/-- Shallow embedding of `Router.route(request, response)`. -/
def route (fuel : Nat) (st : RouterState) (req : Request) : RouteOutcome :=
  match preResolve st req with
  | Sum.inl r => { resp := r, handlerCalled := none, paths := st.paths }
  | Sum.inr res => dispatch fuel st req res

/-! Concrete schemas, states and requests used by the claim theorems. -/

def strSchema : Json := Json.obj [("type", Json.str "string")]

def numSchema : Json := Json.obj [("type", Json.str "number")]

/-- Object schema declaring key1 and key2, both required. -/
def objSchemaRequired : Json :=
  Json.obj
    [("type", Json.str "object"),
     ("properties", Json.obj [("key1", strSchema), ("key2", strSchema)]),
     ("required", Json.arr [Json.str "key1", Json.str "key2"])]

/-- Object schema declaring key1 and key2, nothing required. -/
def objSchemaPlain : Json :=
  Json.obj
    [("type", Json.str "object"),
     ("properties", Json.obj [("key1", strSchema), ("key2", strSchema)])]

/-- Object schema with no properties map. -/
def objSchemaNoProps : Json := Json.obj [("type", Json.str "object")]

def oneOfEmptySchema : Json := Json.obj [("oneOf", Json.arr [])]

/-- A oneOf whose two branches both accept any string. -/
def oneOfBothSchema : Json := Json.obj [("oneOf", Json.arr [strSchema, strSchema])]

def arrayItemsSchema : Json :=
  Json.obj [("type", Json.str "array"), ("items", strSchema)]

def arrayNoItemsSchema : Json := Json.obj [("type", Json.str "array")]

/-- A routing target resolving module `m`, function `f`. -/
def mkTarget : Target := { module := some "m", function := some "f", validTypes := none }

/-- A module universe binding module `m` / function `f` to the given handler. -/
def mkModules (h : Handler) : String → Option (String → Option Handler) :=
  fun m => if m == "m" then some (fun f => if f == "f" then some h else none) else none

/-- A handler returning nothing. -/
def nullHandler : Handler := fun _ _ => HandlerOutcome.ret none

/-- A handler returning the string hello. -/
def helloHandler : Handler := fun _ _ => HandlerOutcome.ret (some (RespVal.json (Json.str "hello")))

/-- C3: a path item with a path-level parameter list and an operation without
its own parameters; dispatching writes the path-level list into the operation. -/
def C3param : Param := { name := "q", paramIn := "query", required := none, schema := strSchema }

def C3op : Operation :=
  { security := none, parameters := none, requestBody := none, responses := none }

def C3state : RouterState :=
  { contextPath := "",
    paths := [("/t", { parameters := some [C3param], methods := [("get", C3op)] })],
    routeDefinition := [], components := Json.null, authPaths := [],
    authenticateFunction := none, authorizeFunction := none, modules := fun _ => none }

def C3req : Request :=
  { method := some "GET", url := some "/t", contentType := none, parsedBody := none }

/-- Observation distinguishing the spec table before and after the C3 request:
whether the get operation at `/t` carries a parameter list. -/
def pathParamsObs (paths : List (String × PathItem)) : Bool :=
  match lookupAssoc paths "/t" with
  | some item =>
    (match lookupAssoc item.methods "get" with
     | some op => op.parameters.isSome
     | none => false)
  | none => false

/-- C4: an operation whose 200 response declares an application/json schema. -/
def C4op : Operation :=
  { security := none, parameters := none, requestBody := none,
    responses := some
      [("200", { content := some [("application/json", { schema := some objSchemaPlain })] })] }

def C4state : RouterState :=
  { contextPath := "",
    paths := [("/t", { parameters := none, methods := [("get", C4op)] })],
    routeDefinition := [("/t", [("get", mkTarget)])],
    components := Json.null, authPaths := [],
    authenticateFunction := none, authorizeFunction := none, modules := mkModules nullHandler }

def C4req : Request :=
  { method := some "GET", url := some "/t", contentType := none, parsedBody := none }

/-- C5: an operation declaring one required query parameter and no request body. -/
def C5param : Param := { name := "p", paramIn := "query", required := some true, schema := strSchema }

def C5op : Operation :=
  { security := none, parameters := some [C5param], requestBody := none,
    responses := some [("200", { content := none })] }

def C5state : RouterState :=
  { contextPath := "",
    paths := [("/t", { parameters := none, methods := [("get", C5op)] })],
    routeDefinition := [("/t", [("get", mkTarget)])],
    components := Json.null, authPaths := [],
    authenticateFunction := none, authorizeFunction := none, modules := mkModules nullHandler }

/-- C5: request for /t with no query string at all. -/
def C5req : Request :=
  { method := some "GET", url := some "/t", contentType := none, parsedBody := none }

/-- C7: two declared path parameters, both numeric. -/
def C7params : List Param :=
  [{ name := "id", paramIn := "path", required := none, schema := numSchema },
   { name := "orderId", paramIn := "path", required := none, schema := numSchema }]

def C7op : Operation :=
  { security := none, parameters := some C7params, requestBody := none,
    responses := some [("200", { content := none })] }

def C7state : RouterState :=
  { contextPath := "",
    paths := [("/users/\x7bid\x7d/\x7borderId\x7d", { parameters := none, methods := [("get", C7op)] })],
    routeDefinition := [("/users/\x7bid\x7d/\x7borderId\x7d", [("get", mkTarget)])],
    components := Json.null, authPaths := [],
    authenticateFunction := none, authorizeFunction := none, modules := mkModules nullHandler }

def C7req : Request :=
  { method := some "GET", url := some "/users/1/2", contentType := none, parsedBody := none }

/-- C7, second part: the single-parameter example of the claim. -/
def C7paramsB : List Param :=
  [{ name := "id", paramIn := "path", required := none, schema := numSchema }]

def C7opB : Operation :=
  { security := none, parameters := some C7paramsB, requestBody := none,
    responses := some [("200", { content := none })] }

def C7stateB : RouterState :=
  { contextPath := "",
    paths := [("/users/\x7bid\x7d", { parameters := none, methods := [("get", C7opB)] })],
    routeDefinition := [("/users/\x7bid\x7d", [("get", mkTarget)])],
    components := Json.null, authPaths := [],
    authenticateFunction := none, authorizeFunction := none, modules := mkModules nullHandler }

def C7reqB : Request :=
  { method := some "GET", url := some "/users/42", contentType := none, parsedBody := none }

/-- C9: a 200 response declaring a text/plain media type. -/
def C9opText : Operation :=
  { security := none, parameters := none, requestBody := none,
    responses := some [("200", { content := some [("text/plain", { schema := none })] })] }

/-- C9: a 200 response declaring only application/json. -/
def C9opJson : Operation :=
  { security := none, parameters := none, requestBody := none,
    responses := some
      [("200", { content := some [("application/json", { schema := some objSchemaPlain })] })] }

def C9state : RouterState :=
  { contextPath := "",
    paths := [("/t", { parameters := none, methods := [("get", C9opText)] })],
    routeDefinition := [("/t", [("get", mkTarget)])],
    components := Json.null, authPaths := [],
    authenticateFunction := none, authorizeFunction := none, modules := mkModules helloHandler }

def C9stateB : RouterState :=
  { contextPath := "",
    paths := [("/t", { parameters := none, methods := [("get", C9opJson)] })],
    routeDefinition := [("/t", [("get", mkTarget)])],
    components := Json.null, authPaths := [],
    authenticateFunction := none, authorizeFunction := none, modules := mkModules helloHandler }

def C9req : Request :=
  { method := some "GET", url := some "/t", contentType := none, parsedBody := none }

/-! Claim theorems. -/

/-- C1: the claim states that the validator checks each declared property of an
object schema, raising for absent required properties and recursing into every
present one. `Validator.validate` (validator.js lines 73-87) iterates the
declared properties with `Array.prototype.every`, but its callback returns
`undefined` on every non-raising path, so the iteration stops after the first
declared property: an object missing the required second property, and an
object whose second property violates its schema, both pass without raising. -/
theorem C1_validator_checks_only_first_property :
    vvalidate 5 (Json.obj [("key1", Json.str "x")]) objSchemaRequired Json.null
      = Except.ok () ∧
    vvalidate 5 (Json.obj [("key1", Json.str "x"), ("key2", Json.num 7)]) objSchemaPlain Json.null
      = Except.ok () := ⟨rfl, rfl⟩

/-- C2: the claim states that a oneOf validates exactly when exactly one branch
validates, and that an empty oneOf must raise for every value.
`Validator.validate` (validator.js lines 147-160) raises only when
`errors.length > 0 && errors.length != specs.length - 1`: an empty oneOf
collects no errors and passes, and a value matching every branch of a
two-branch oneOf also passes. `Router.validate` (router.js lines 574-579)
implements the exactly-one rule correctly, returning false in both cases. -/
theorem C2_validator_oneOf_edge_cases_pass :
    vvalidate 5 (Json.str "x") oneOfEmptySchema Json.null = Except.ok () ∧
    vvalidate 5 (Json.str "x") oneOfBothSchema Json.null = Except.ok () ∧
    rvalidate 5 (Json.str "x") oneOfEmptySchema Json.null = false ∧
    rvalidate 5 (Json.str "x") oneOfBothSchema Json.null = false :=
  ⟨rfl, rfl, rfl, rfl⟩

/-- C6: the claim states that every element of an array value is validated
against the items schema and that a non-empty array under a schema without
items fails. In `Validator.validate` (validator.js lines 89-97) the `every`
callback returns `undefined` after validating an element and `false` when items
is missing, so iteration stops after the first element and the aggregate
boolean is discarded: an array whose second element violates the items schema
passes, and a non-empty array without items passes without raising. -/
theorem C6_validator_array_checks_incomplete :
    vvalidate 5 (Json.arr [Json.str "a", Json.num 7]) arrayItemsSchema Json.null
      = Except.ok () ∧
    vvalidate 5 (Json.arr [Json.num 1]) arrayNoItemsSchema Json.null
      = Except.ok () := ⟨rfl, rfl⟩

/-- C10: an array value satisfies a schema of type object that declares no
properties, in both validators: `typeof` of an array is `"object"`, the array
is not null, and with no properties map there is nothing further to check. -/
theorem C10_array_accepted_as_object_schema (n : Nat) (elems : List Json) (components : Json) :
    rvalidate (n + 1) (Json.arr elems) objSchemaNoProps components = true ∧
    vvalidate (n + 1) (Json.arr elems) objSchemaNoProps components = Except.ok () :=
  ⟨rfl, rfl⟩

/-- C3 counterexample: dispatching a GET /t request against a path item that
declares path-level parameters writes those parameters into the operation
object of the shared spec table (`methodSpec.parameters = spec.parameters`,
router.js line 236), so the table after the request differs from the table
before it. -/
theorem C3_route_mutates_spec_table :
    (route 5 C3state C3req).paths ≠ C3state.paths := by
  intro h
  have h2 := congrArg pathParamsObs h
  rw [show pathParamsObs (route 5 C3state C3req).paths = true from rfl,
      show pathParamsObs C3state.paths = false from rfl] at h2
  exact Bool.noConfusion h2

/-- C4 counterexample: the 200 response of the matched operation declares an
application/json content schema and the handler returns nothing, yet the
dispatcher answers with the plain 200 success response (router.js lines
427-428), not with HTTP 500 as the claim states. -/
theorem C4_null_result_with_schema_yields_success :
    (route 5 C4state C4req).resp = sendSuccessResp ∧
    (route 5 C4state C4req).handlerCalled = some none := ⟨rfl, rfl⟩

/-- C5 counterexample: the matched operation declares a required query
parameter, the request carries no query string at all, and yet the dispatcher
invokes the handler (with an undefined request body) and answers 200: the
required check of router.js line 323 runs only inside the
`queryParameters != null` branch. -/
theorem C5_missing_required_param_handler_invoked :
    (route 5 C5state C5req).resp.status = 200 ∧
    (route 5 C5state C5req).handlerCalled = some none := ⟨rfl, rfl⟩

/-- C7: the claim states that every declared path parameter is bound by
position and coerced. For the declared path with two placeholders and request
/users/1/2, the binding loop (router.js lines 348-361) re-creates the request
body object inside the loop, so the first parameter binding is discarded and
the handler receives only the last one; the single-parameter example of the
claim binds id from the extracted segment 42 and coerces it per the declared
number type. -/
theorem C7_second_path_param_overwrites_first :
    (route 5 C7state C7req).handlerCalled
      = some (some (Json.obj [("orderId", Json.num 2)])) ∧
    (route 5 C7stateB C7reqB).handlerCalled
      = some (some (Json.obj [("id", Json.num 42)])) := ⟨rfl, rfl⟩

/-- C9: a handler returning a string under an operation whose 200 response
declares text/plain is answered with status 200 — but `sendText` (router.js
lines 656-661) passes the string to `writeHead(200, text, headers)` as the HTTP
status message and ends the response without writing a body, so the string is
not emitted as the response body; without a declared text/plain media type the
dispatcher answers 500 as the claim states. -/
theorem C9_text_response_sent_as_status_message :
    (route 5 C9state C9req).resp
      = { status := 200, statusMessage := some "hello",
          contentType := some "text/plain", body := none } ∧
    (route 5 C9stateB C9req).resp = sendErrorResp 500 "Internal server error." :=
  ⟨rfl, rfl⟩

/-- Every branch of the dispatch phase returns the spec table produced by the
pre-resolution phase unchanged. -/
theorem dispatch_paths (fuel : Nat) (st : RouterState) (req : Request) (res : Resolved) :
    (dispatch fuel st req res).paths = res.pathsOut := by
  unfold dispatch
  repeat' split
  all_goals rfl

/-- The pre-resolution phase always records the spec table produced by the
parameter-inheritance write for the matched key and method. -/
theorem preResolve_pathsOut (st : RouterState) (req : Request) (res : Resolved)
    (h : preResolve st req = Sum.inr res) :
    res.pathsOut = inheritParameters st.paths res.key res.methodLower := by
  unfold preResolve at h
  repeat' first
    | split at h
    | simp only [] at h
  all_goals first
    | exact Sum.noConfusion h
    | (injection h with h2; subst h2; rfl)

/-- C3 as amended: dispatching a request either leaves the spec table unchanged
or replaces it by the parameter-inheritance write for one key and method; the
route table and the component registry are untouched either way (route reads
them but never writes). -/
theorem C3_route_paths_frame (fuel : Nat) (st : RouterState) (req : Request) :
    (route fuel st req).paths = st.paths ∨
      ∃ key m, (route fuel st req).paths = inheritParameters st.paths key m := by
  cases hres : preResolve st req with
  | inl r => left; simp [route, hres]
  | inr res =>
    right
    refine ⟨res.key, res.methodLower, ?_⟩
    simp [route, hres, dispatch_paths, preResolve_pathsOut st req res hres]

/-- C4 as amended: when the matched operation declares a `"200"` response, a
handler that returns nothing is answered with the plain 200 success response
(no body), even when that response declares a content schema; the 500 the claim
expects never happens for a null handler result. -/
theorem C4_null_result_plain_success (fuel : Nat) (components : Json) (op : Operation)
    (rs : List (String × RespSpec)) (r200 : RespSpec)
    (content : List (String × MediaTypeSpec)) (v : Option RespVal)
    (hresp : op.responses = some rs)
    (h200 : lookupAssoc rs "200" = some r200)
    (_hcontent : r200.content = some content)
    (hnull : respNotNull v = false) :
    emitResponse fuel components op v = sendSuccessResp := by
  simp only [emitResponse, hresp, h200]
  cases v with
  | none => rfl
  | some rv =>
    cases rv with
    | file dataType fileName => simp [respNotNull] at hnull
    | json j =>
      cases j
      case null => rfl
      all_goals simp [respNotNull] at hnull

theorem C4_null_result_plain_success_witness :
    emitResponse 3 Json.null C4op none = sendSuccessResp :=
  C4_null_result_plain_success 3 Json.null C4op _ _ _ none rfl rfl rfl rfl

/-- C5 as amended: required-parameter enforcement happens only inside the
query-binding loop, which runs when the request has a query string and the
operation declares parameters but no request body: a declared in-query
parameter with required true that is absent from the parsed query makes the
binding fail (the dispatcher then answers 400 without invoking the handler);
requests with no query string at all, and parameters with a location other
than query, are not checked. -/
theorem C5_required_query_param_fails_binding
    (qp : List (String × String)) (p : Param)
    (hin : p.paramIn = "query") (hreq : p.required = some true)
    (habsent : lookupAssoc qp p.name = none) :
    ∀ ps : List Param, p ∈ ps → ∀ acc : Json, bindQueryParams ps qp acc = none := by
  intro ps
  induction ps with
  | nil => intro hmem; exact absurd hmem (List.not_mem_nil p)
  | cons q rest ih =>
    intro hmem acc
    rw [List.mem_cons] at hmem
    cases hmem with
    | inl heq =>
      subst heq
      unfold bindQueryParams
      rw [hin]
      simp [habsent, hreq]
    | inr hmem2 =>
      unfold bindQueryParams
      repeat' first
        | rfl
        | exact ih hmem2 _
        | split
        | simp only []

theorem C5_required_query_param_fails_binding_witness :
    bindQueryParams [C5param] [("x", "1")] (Json.obj []) = none :=
  C5_required_query_param_fails_binding [("x", "1")] C5param rfl rfl rfl
    [C5param] (List.mem_singleton.mpr rfl) (Json.obj [])

/-- C8: a reference of the canonical form with a name that is not registered
under `components.schemas` never validates: `Validator.validate` raises the
component-not-specified error and `Router.validate` returns false, for every
value and every fuel. The two side conditions on the name exclude the segment
names the resolution walk skips, and the absence of a schema literally named
`schemas` keeps the fallback lookup of the `Validator.validate` walk empty. -/
theorem C8_unresolved_ref_fails_closed
    (n : Nat) (value : Json) (refStr name : String)
    (cf sf : List (String × Json))
    (hsplit : strSplitOnChar '/' refStr = ["#", "components", "schemas", name])
    (hn1 : name ≠ "#") (hn2 : name ≠ "components")
    (hcomps : lookupAssoc cf "schemas" = some (Json.obj sf))
    (hname : lookupAssoc sf name = none)
    (hself : lookupAssoc sf "schemas" = none) :
    vvalidate (n + 1) value (Json.obj [("$ref", Json.str refStr)]) (Json.obj cf)
      = Except.error ("The component " ++ refStr ++ " is not specified.") ∧
    rvalidate (n + 1) value (Json.obj [("$ref", Json.str refStr)]) (Json.obj cf) = false := by
  have hv : vresolveSegs (Json.obj cf) ["#", "components", "schemas", name] = none := by
    simp [vresolveSegs, getField, hcomps, hname, hself, Json.isNull, hn1, hn2]
  have hr : rresolveSegs (Json.obj cf) ["#", "components", "schemas", name] = none := by
    simp [rresolveSegs, getField, hcomps, hname, hn1, hn2]
  have e1 : vresolve (Json.obj [("$ref", Json.str refStr)]) (Json.obj cf)
      = Except.error ("The component " ++ refStr ++ " is not specified.") := by
    show (match vresolveSegs (Json.obj cf) (strSplitOnChar '/' refStr) with
          | some c => Except.ok c
          | none => Except.error ("The component " ++ refStr ++ " is not specified.")) = _
    rw [hsplit, hv]
  have e2 : rresolve (Json.obj [("$ref", Json.str refStr)]) (Json.obj cf) = none := by
    show rresolveSegs (Json.obj cf) (strSplitOnChar '/' refStr) = none
    rw [hsplit, hr]
  constructor
  · calc vvalidate (n + 1) value (Json.obj [("$ref", Json.str refStr)]) (Json.obj cf)
        = (match vresolve (Json.obj [("$ref", Json.str refStr)]) (Json.obj cf) with
           | Except.error e => Except.error e
           | Except.ok spec =>
             vcheckWith (vvalidate n) value spec (Json.obj cf)) := rfl
      _ = Except.error ("The component " ++ refStr ++ " is not specified.") := by rw [e1]
  · calc rvalidate (n + 1) value (Json.obj [("$ref", Json.str refStr)]) (Json.obj cf)
        = (match rresolve (Json.obj [("$ref", Json.str refStr)]) (Json.obj cf) with
           | none => false
           | some spec => rcheckWith (rvalidate n) value spec (Json.obj cf)) := rfl
      _ = false := by rw [e2]

theorem C8_unresolved_ref_fails_closed_witness :
    vvalidate 3 (Json.str "v") (Json.obj [("$ref", Json.str "#/components/schemas/Missing")])
        (Json.obj [("schemas", Json.obj [])])
      = Except.error "The component #/components/schemas/Missing is not specified." ∧
    rvalidate 3 (Json.str "v") (Json.obj [("$ref", Json.str "#/components/schemas/Missing")])
        (Json.obj [("schemas", Json.obj [])]) = false :=
  C8_unresolved_ref_fails_closed 2 (Json.str "v") "#/components/schemas/Missing" "Missing"
    [("schemas", Json.obj [])] [] (by rfl) (by decide) (by decide) rfl rfl rfl
